import Mathlib

/-!
Shallow embedding of the token-lifecycle and proxy logic of the
Lean-SDK demo repository (src/server.js, src/plaid-app.js,
src/backend-simulation.js).

The JavaScript code is effectful: it reads wall-clock time, mutates two
module-level cache variables (`apiAccessToken`, `apiTokenExpiry`) and
performs vendor HTTP calls.  We embed it by explicit state passing:

* wall-clock instants are `Int` millisecond timestamps (`Date.now()`),
  supplied as parameters at each point the code reads the clock;
* the module-level cache is a `TokenCache` value threaded through every
  function that reads or writes it;
* each outbound vendor HTTP call is recorded in a returned request
  trace (`List LeanRequest` / `List PlaidRequest`), and the vendor it
  talks to is a parameter giving the response of each endpoint
  (`Except String _`: `.error` is a rejected promise from
  `makeRequest`, carrying the error message; `.ok` is the parsed JSON
  body of a 2xx response, restricted to the fields the code reads);
* JavaScript truthiness on optional strings (`null`, `undefined` and
  the empty string are falsy) is made explicit via `jsFalsyStr`.
-/

namespace LeanSDK

/-- JavaScript truthiness test for an optional string value:
`null` / `undefined` (here `none`) and the empty string are falsy. -/
def jsFalsyStr : Option String → Bool
  | none => true
  | some s => s = ""

/-- JavaScript `a || b` on optional strings, with `a` kept when truthy. -/
def jsOr (a b : Option String) : Option String :=
  if jsFalsyStr a then b else a

/-- JavaScript string interpolation of a possibly-`undefined` value:
`\x7b$v\x7d` renders `undefined` when `v` is absent. -/
def jsStrUndef : Option String → String
  | none => "undefined"
  | some s => s

/-- Whether the second character list is an initial segment of the
first. -/
def charsStartWith : List Char → List Char → Bool
  | _, [] => true
  | [], _ :: _ => false
  | c :: cs, p :: ps => c == p && charsStartWith cs ps

/-- Whether the second character list occurs contiguously anywhere in
the first. -/
def charsContain : List Char → List Char → Bool
  | s, p => charsStartWith s p ||
      (match s with
       | [] => false
       | _ :: cs => charsContain cs p)

/-- JavaScript `s.includes(pat)`: `pat` occurs as a contiguous
substring of `s`. -/
def containsSub (s pat : String) : Bool :=
  charsContain s.data pat.data

/-- The two module-level cache variables of src/server.js
(`let apiAccessToken = null; let apiTokenExpiry = null;`), both `null`
at process start and only ever assigned together by
`getApiAccessToken`. -/
structure TokenCache where
  apiAccessToken : Option String
  apiTokenExpiry : Option Int
deriving Repr, DecidableEq

/-- The cache at process start: both variables `null`. -/
def TokenCache.init : TokenCache := ⟨none, none⟩

/-- JavaScript `>=` comparison against `apiTokenExpiry`: `null` coerces
to `0` in a numeric comparison. -/
def expiryVal : Option Int → Int
  | none => 0
  | some e => e

/-- The guard `!apiAccessToken || Date.now() >= apiTokenExpiry` used by
`createCustomer` (and the other proxy calls) before reusing the cached
API token. -/
def needsTokenRefresh (cache : TokenCache) (now : Int) : Bool :=
  jsFalsyStr cache.apiAccessToken || now ≥ expiryVal cache.apiTokenExpiry

/-- Parsed 2xx JSON body of the OAuth token endpoint, restricted to the
fields the code reads (`data.access_token`, `data.expires_in`).
`expires_in` is in seconds. -/
structure TokenResponse where
  access_token : String
  expires_in : Int
deriving Repr, DecidableEq

/-- Parsed 2xx JSON body of `POST /customers/v1`, restricted to the
fields the code reads.  Every field is optional: the code guards
against the identifier being absent (or fails to, in server.js). -/
structure CustomerResponse where
  customer_id : Option String
  id : Option String
  app_user_id : Option String
  created_at : Option String
deriving Repr, DecidableEq

/-- Parsed 2xx JSON body of the token endpoint for a customer-scoped
request, as consumed by `initializeCustomer` / `getTokensForCustomer`:
`access_token`, `expires_in`, `scope`. -/
structure CustTokenResponse where
  access_token : String
  expires_in : Int
  scope : String
deriving Repr, DecidableEq

/-- One outbound HTTP call to the Lean vendor, as recorded at the call
site.  `token scope` is a client-credentials POST to `auth_url` with
the given `scope` form field; `createCust` is the `POST /customers/v1`
call, recording the `app_user_id` sent and the bearer token used in
the Authorization header (the then-current cache variable). -/
inductive LeanRequest where
  | token (scope : String)
  | createCust (app_user_id : Option String) (bearer : Option String)
deriving Repr, DecidableEq

/-- src/server.js `getApiAccessToken` (lines 134-156): always POSTs the
token endpoint with `scope=api`; on success assigns BOTH cache
variables (`apiAccessToken = data.access_token; apiTokenExpiry =
Date.now() + data.expires_in * 1000`) and returns the token; on a
rejected request the exception propagates before either assignment.
`tokenResp` is the vendor response, `now` the value of `Date.now()` at
the assignment. -/
def getApiAccessToken (tokenResp : Except String TokenResponse) (now : Int)
    (cache : TokenCache) :
    Except String String × TokenCache × List LeanRequest :=
  match tokenResp with
  | .error e => (.error e, cache, [.token "api"])
  | .ok d =>
      (.ok d.access_token,
       ⟨some d.access_token, some (now + d.expires_in * 1000)⟩,
       [.token "api"])

/-- src/server.js `createCustomer` (lines 161-182): refreshes the API
token only when `!apiAccessToken || Date.now() >= apiTokenExpiry`,
then POSTs `/customers/v1` with the cached bearer token and returns
the vendor response unvalidated (no check that a customer identifier
is present).  A failed refresh propagates before the customer call. -/
def createCustomer (tokenResp : Except String TokenResponse)
    (custResp : Except String CustomerResponse) (now : Int)
    (cache : TokenCache) (appUserId : Option String) :
    Except String CustomerResponse × TokenCache × List LeanRequest :=
  let (tokRes, cache1, reqs1) :=
    if needsTokenRefresh cache now then
      getApiAccessToken tokenResp now cache
    else
      (.ok (jsStrUndef cache.apiAccessToken), cache, [])
  match tokRes with
  | .error e => (.error e, cache1, reqs1)
  | .ok _ =>
      (custResp, cache1, reqs1 ++ [.createCust appUserId cache1.apiAccessToken])

/-- src/server.js `getCustomerAccessToken` (lines 187-206): always
POSTs the token endpoint with `scope=customer.$\x7bcustomerId\x7d` and
returns the vendor response as-is.  It reads and writes neither cache
variable, so the cache passes through untouched. -/
def getCustomerAccessToken (ctResp : Except String CustTokenResponse)
    (customerId : Option String) (cache : TokenCache) :
    Except String CustTokenResponse × TokenCache × List LeanRequest :=
  (ctResp, cache, [.token ("customer." ++ jsStrUndef customerId)])

/-- Return value of `initializeCustomer`: the success object
`\x7bsuccess: true, customer_id, app_user_id, access_token,
token_expires_in, token_scope\x7d` or the failure object
`\x7bsuccess: false, error\x7d`. -/
inductive InitResult where
  | ok (customer_id : Option String) (app_user_id : Option String)
      (access_token : String) (token_expires_in : Int) (token_scope : String)
  | err (error : String)
deriving Repr, DecidableEq

/-- src/server.js `initializeCustomer` (lines 212-247), the 3-step
flow: unconditionally `await getApiAccessToken()`, then
`createCustomer(appUserId)`, then `getCustomerAccessToken(customerId)`
with `customerId = customer.customer_id || customer.id`; the
surrounding try/catch converts any thrown error into
`\x7bsuccess: false, error\x7d`.  `now1` is `Date.now()` during step 1,
`now2` during the cache guard of step 2. -/
def initializeCustomer (tokenResp : Except String TokenResponse)
    (custResp : Except String CustomerResponse)
    (ctResp : Except String CustTokenResponse)
    (now1 now2 : Int) (cache : TokenCache) (appUserId : Option String) :
    InitResult × TokenCache × List LeanRequest :=
  match getApiAccessToken tokenResp now1 cache with
  | (.error e, cache1, reqs1) => (.err e, cache1, reqs1)
  | (.ok _, cache1, reqs1) =>
      match createCustomer tokenResp custResp now2 cache1 appUserId with
      | (.error e, cache2, reqs2) => (.err e, cache2, reqs1 ++ reqs2)
      | (.ok customer, cache2, reqs2) =>
          let customerId := jsOr customer.customer_id customer.id
          match getCustomerAccessToken ctResp customerId cache2 with
          | (.error e, cache3, reqs3) => (.err e, cache3, reqs1 ++ reqs2 ++ reqs3)
          | (.ok ct, cache3, reqs3) =>
              (.ok customerId customer.app_user_id ct.access_token
                 ct.expires_in ct.scope,
               cache3, reqs1 ++ reqs2 ++ reqs3)

/-- Return value of `getTokensForCustomer`: `\x7bsuccess: true,
customer_id, access_token, token_expires_in, token_scope\x7d` or
`\x7bsuccess: false, error\x7d`. -/
inductive TokensResult where
  | ok (customer_id : String) (access_token : String)
      (token_expires_in : Int) (token_scope : String)
  | err (error : String)
deriving Repr, DecidableEq

/-- src/server.js `getTokensForCustomer` (lines 252-282), the 2-step
flow: unconditionally `await getApiAccessToken()`, then
`getCustomerAccessToken(customerId)`; try/catch as in
`initializeCustomer`. -/
def getTokensForCustomer (tokenResp : Except String TokenResponse)
    (ctResp : Except String CustTokenResponse)
    (now1 : Int) (cache : TokenCache) (customerId : String) :
    TokensResult × TokenCache × List LeanRequest :=
  match getApiAccessToken tokenResp now1 cache with
  | (.error e, cache1, reqs1) => (.err e, cache1, reqs1)
  | (.ok _, cache1, reqs1) =>
      match getCustomerAccessToken ctResp (some customerId) cache1 with
      | (.error e, cache2, reqs2) => (.err e, cache2, reqs1 ++ reqs2)
      | (.ok ct, cache2, reqs2) =>
          (.ok customerId ct.access_token ct.expires_in ct.scope,
           cache2, reqs1 ++ reqs2)

/-- Civil date (year, month, day) of a day count relative to
1970-01-01, proleptic Gregorian — the date arithmetic underlying the
ECMAScript `Date` object in UTC. -/
def civilFromDays (z0 : Int) : Int × Int × Int :=
  let z := z0 + 719468
  let era := Int.fdiv z 146097
  let doe := z - era * 146097
  let yoe := Int.fdiv (doe - Int.fdiv doe 1460 + Int.fdiv doe 36524
      - Int.fdiv doe 146096) 365
  let y := yoe + era * 400
  let doy := doe - (365 * yoe + Int.fdiv yoe 4 - Int.fdiv yoe 100)
  let mp := Int.fdiv (5 * doy + 2) 153
  let d := doy - Int.fdiv (153 * mp + 2) 5 + 1
  let m := mp + (if mp < 10 then 3 else -9)
  (y + (if m ≤ 2 then 1 else 0), m, d)

/-- Zero-pad a day/month number to two digits. -/
def pad2 (n : Int) : String :=
  if n < 10 then "0" ++ toString n else toString n

/-- Zero-pad a year number to four digits (toISOString year field for
years 0-9999). -/
def pad4 (n : Int) : String :=
  if n < 10 then "000" ++ toString n
  else if n < 100 then "00" ++ toString n
  else if n < 1000 then "0" ++ toString n
  else toString n

/-- The date part of `new Date(ms).toISOString()` — what the code
computes with `.toISOString().split(\x27T\x27)[0]`: the UTC civil date
of the millisecond timestamp as `YYYY-MM-DD`. -/
def isoDateString (ms : Int) : String :=
  let ymd := civilFromDays (Int.fdiv ms 86400000)
  pad4 ymd.1 ++ "-" ++ pad2 ymd.2.1 ++ "-" ++ pad2 ymd.2.2

/-- The link-token configuration built by src/server.js
`createPlaidLinkToken` (lines 450-486): fixed literals plus the user
id, with `institution_id` added only when the argument is truthy.
Credentials (`client_id`, `secret`) are config constants and are
omitted from the embedding. -/
structure LinkTokenConfig where
  client_user_id : String
  client_name : String
  products : List String
  country_codes : List String
  language : String
  institution_id : Option String
deriving Repr, DecidableEq

/-- Parsed 2xx JSON body of Plaid `/link/token/create`, restricted to
the fields this code reads downstream. -/
structure PlaidLinkData where
  link_token : Option String
  request_id : Option String
deriving Repr, DecidableEq

/-- Parsed 2xx JSON body of Plaid `/transactions/get`; the handler
relays it without reading fields, so it stays opaque. -/
structure TransactionsData where
  payload : String
deriving Repr, DecidableEq

/-- One outbound HTTP call to the Plaid vendor, recorded at the call
site with the request-body fields the embedding tracks. -/
inductive PlaidRequest where
  | linkTokenCreate (config : LinkTokenConfig)
  | transactionsGet (access_token start_date end_date : String)
deriving Repr, DecidableEq

/-- src/server.js `createPlaidLinkToken` (lines 450-486): builds the
link-token config (adding `institution_id` only when truthy), POSTs
`/link/token/create` once, and returns the vendor response.  No retry
logic lives here. -/
def createPlaidLinkToken (vendorResp : Except String PlaidLinkData)
    (userId : String) (institutionId : Option String) :
    Except String PlaidLinkData × List PlaidRequest :=
  let config : LinkTokenConfig :=
    { client_user_id := userId
      client_name := "Lean SDK Integration App"
      products := ["auth", "transactions"]
      country_codes := ["US"]
      language := "en"
      institution_id :=
        if jsFalsyStr institutionId then none else institutionId }
  (vendorResp, [.linkTokenCreate config])

/-- src/server.js `getPlaidTransactions` (lines 586-608): POSTs
`/transactions/get` with `access_token`, `start_date`, `end_date` as
given, and returns the vendor response. -/
def getPlaidTransactions (vendorResp : Except String TransactionsData)
    (accessToken startDate endDate : String) :
    Except String TransactionsData × List PlaidRequest :=
  (vendorResp, [.transactionsGet accessToken startDate endDate])

/-- JSON body sent by the `/api/plaid/create-link-token` handler:
either the relayed vendor data (status 200) or the
`\x7berror, error_type\x7d` envelope built in its catch block. -/
inductive LinkTokenEndpointBody where
  | success (data : PlaidLinkData)
  | failure (error : String) (error_type : String)
deriving Repr, DecidableEq

/-- src/server.js `/api/plaid/create-link-token` handler (lines
1117-1152).  `body` is the result of `JSON.parse` on the request body
(`.error` = thrown parse error), giving the `user_id` and
`institution_id` fields; `nowMs` is `Date.now()` used for the default
user id.  On success it relays the vendor data with status 200; in the
catch block it classifies the error message by
`includes(\x27INVALID_INSTITUTION\x27)` into status 400 /
`INVALID_INSTITUTION` or status 500 / `SERVER_ERROR`.  The handler
performs no retry: at most one vendor call per HTTP request. -/
def createLinkTokenHandler
    (body : Except String (Option String × Option String))
    (vendorResp : Except String PlaidLinkData) (nowMs : Int) :
    (Nat × LinkTokenEndpointBody) × List PlaidRequest :=
  let classify (e : String) : Nat × LinkTokenEndpointBody :=
    if containsSub e "INVALID_INSTITUTION" then
      (400, .failure e "INVALID_INSTITUTION")
    else
      (500, .failure e "SERVER_ERROR")
  match body with
  | .error e => (classify e, [])
  | .ok (user_id, institution_id) =>
      let uid := jsStrUndef (jsOr user_id (some ("user_" ++ toString nowMs)))
      let instId := jsOr institution_id none
      match createPlaidLinkToken vendorResp uid instId with
      | (.ok d, reqs) => ((200, .success d), reqs)
      | (.error e, reqs) => (classify e, reqs)

/-- JSON body sent by the `/api/plaid/transactions` handler: relayed
vendor data on 200, or an `\x7berror\x7d` envelope on 400/500. -/
inductive TxEndpointBody where
  | success (data : TransactionsData)
  | failure (error : String)
deriving Repr, DecidableEq

/-- src/server.js `/api/plaid/transactions` handler (lines 1249-1281).
`body` gives the parsed `access_token`, `start_date`, `end_date`
fields.  Missing `access_token` is rejected with 400 before any vendor
call; omitted dates default to `end = today` and
`start = now - 30*24*60*60*1000` as ISO date strings; any thrown error
yields 500. -/
def plaidTransactionsHandler
    (body : Except String (Option String × Option String × Option String))
    (vendorResp : Except String TransactionsData) (nowMs : Int) :
    (Nat × TxEndpointBody) × List PlaidRequest :=
  match body with
  | .error e => ((500, .failure e), [])
  | .ok (access_token, start_date, end_date) =>
      if jsFalsyStr access_token then
        ((400, .failure "access_token is required"), [])
      else
        let endDateFinal := jsStrUndef (jsOr end_date (some (isoDateString nowMs)))
        let startDateFinal := jsStrUndef (jsOr start_date
            (some (isoDateString (nowMs - 30 * 24 * 60 * 60 * 1000))))
        match getPlaidTransactions vendorResp (jsStrUndef access_token)
            startDateFinal endDateFinal with
        | (.ok d, reqs) => ((200, .success d), reqs)
        | (.error e, reqs) => ((500, .failure e), reqs)

/-- src/server.js `/api/initialize-customer` handler (lines 862-883):
parses `\x7bapp_user_id\x7d` and responds 200 with whatever
`initializeCustomer` returns — including its `\x7bsuccess: false,
error\x7d` failure object, since `initializeCustomer` traps every
error itself; only a `JSON.parse` throw reaches the catch block and
its status 500. -/
def initializeCustomerHandler (body : Except String (Option String))
    (tokenResp : Except String TokenResponse)
    (custResp : Except String CustomerResponse)
    (ctResp : Except String CustTokenResponse)
    (now1 now2 : Int) (cache : TokenCache) :
    (Nat × InitResult) × TokenCache × List LeanRequest :=
  match body with
  | .error e => ((500, .err e), cache, [])
  | .ok appUserId =>
      match initializeCustomer tokenResp custResp ctResp now1 now2 cache appUserId with
      | (result, cache1, reqs) => ((200, result), cache1, reqs)

/-- src/server.js `/api/get-customer-tokens` handler (lines 885-912):
parses `\x7bcustomer_id\x7d`, rejects a falsy `customer_id` with 400
before any network call, then responds 200 with whatever
`getTokensForCustomer` returns — again including its failure object;
only a parse throw yields 500. -/
def getCustomerTokensHandler (body : Except String (Option String))
    (tokenResp : Except String TokenResponse)
    (ctResp : Except String CustTokenResponse)
    (now1 : Int) (cache : TokenCache) :
    (Nat × TokensResult) × TokenCache × List LeanRequest :=
  match body with
  | .error e => ((500, .err e), cache, [])
  | .ok customer_id =>
      if jsFalsyStr customer_id then
        ((400, .err "customer_id is required"), cache, [])
      else
        match getTokensForCustomer tokenResp ctResp now1 cache
            (jsStrUndef customer_id) with
        | (result, cache1, reqs) => ((200, result), cache1, reqs)

/-- Return value of src/backend-simulation.js
`LeanBackendAPI.createCustomer` (lines 85-135) on success. -/
structure SimCustomerResult where
  customer_id : String
  app_user_id : Option String
  created_at : Option String
deriving Repr, DecidableEq

/-- src/backend-simulation.js `LeanBackendAPI.createCustomer` (lines
85-135): on a 2xx response computes
`customerId = data.customer_id || data.id` and THROWS
(`Customer API did not return a customer_id`) when that is falsy;
otherwise returns `\x7bcustomer_id, app_user_id, created_at\x7d`.
Unlike the server-side `createCustomer`, this one validates the
identifier. -/
def simCreateCustomer (resp : Except String CustomerResponse) :
    Except String SimCustomerResult :=
  match resp with
  | .error e => .error e
  | .ok data =>
      let customerId := jsOr data.customer_id data.id
      if jsFalsyStr customerId then
        .error "Customer API did not return a customer_id"
      else
        .ok ⟨jsStrUndef customerId, data.app_user_id, data.created_at⟩

/-- The fetch response seen by the browser code in src/plaid-app.js:
the HTTP status (from which `response.ok` is derived) and the JSON
body fields the code reads. -/
structure FetchResp where
  status : Nat
  error_type : Option String
  error : Option String
  link_token : Option String
deriving Repr, DecidableEq

/-- `response.ok`: status in the range 200-299. -/
def respOk (r : FetchResp) : Bool :=
  200 ≤ r.status && r.status < 300

/-- The retry guard in src/plaid-app.js `initializePlaid` (line 85):
`!response.ok && (data.error_type === \x27INVALID_INSTITUTION\x27 ||
(data.error && data.error.includes(\x27INVALID_INSTITUTION\x27)))`. -/
def invalidInstitutionResp (r : FetchResp) : Bool :=
  !respOk r &&
    (r.error_type == some "INVALID_INSTITUTION" ||
      (!jsFalsyStr r.error && containsSub (jsStrUndef r.error) "INVALID_INSTITUTION"))

/-- Body of a POST to `/api/plaid/create-link-token` as built by the
frontend: `\x7buser_id\x7d`, plus `institution_id` when one was
selected. -/
structure LinkTokenRequestBody where
  user_id : String
  institution_id : Option String
deriving Repr, DecidableEq

/-- Final outcome of the frontend link-token phase: a link token, or
the thrown error message. -/
inductive FlowOutcome where
  | ok (link_token : String)
  | err (msg : String)
deriving Repr, DecidableEq

/-- The post-retry checks of `initializePlaid` (lines 119-128):
`if (!response.ok) throw new Error(data.error || \x27Failed to create
link token\x27)`, then `if (!data.link_token) throw ...`. -/
def finalizeLinkResp (r : FetchResp) : FlowOutcome :=
  if !respOk r then
    .err (jsStrUndef (jsOr r.error (some "Failed to create link token")))
  else if jsFalsyStr r.link_token then
    .err "No link token returned from server"
  else
    .ok (jsStrUndef r.link_token)

/-- The link-token phase of src/plaid-app.js `initializePlaid` (lines
63-128): POST `\x7buser_id, institution_id?\x7d` (the institution only
when truthy); if the response fails the `invalidInstitutionResp` test,
POST once more with `institution_id` omitted and use that response;
then apply the final checks.  `resp1` / `resp2` are the endpoint
responses to the first and (if made) second POST; the returned list is
the requests actually sent, in order. -/
def initializePlaid (userId : String) (selectedInstitution : Option String)
    (resp1 resp2 : FetchResp) :
    FlowOutcome × List LinkTokenRequestBody :=
  let req1 : LinkTokenRequestBody :=
    ⟨userId, if jsFalsyStr selectedInstitution then none else selectedInstitution⟩
  if invalidInstitutionResp resp1 then
    let req2 : LinkTokenRequestBody := ⟨userId, none⟩
    (finalizeLinkResp resp2, [req1, req2])
  else
    (finalizeLinkResp resp1, [req1])

/-- Number of token-endpoint calls in a request trace. -/
def countTokenReqs (reqs : List LeanRequest) : Nat :=
  reqs.countP fun r => match r with
    | .token _ => true
    | .createCust _ _ => false

/-- C9: the token cache is error-atomic — when the token-endpoint
request of `getApiAccessToken` fails, the cached `apiAccessToken` and
`apiTokenExpiry` keep exactly their prior values; the cache is mutated
only on success, and then both fields are updated together to the
returned token and to `now + expires_in * 1000`. -/
theorem getApiAccessToken_error_atomic (now : Int) (cache : TokenCache) :
    (∀ e, getApiAccessToken (.error e) now cache =
      (.error e, cache, [.token "api"])) ∧
    (∀ d, getApiAccessToken (.ok d) now cache =
      (.ok d.access_token,
       ⟨some d.access_token, some (now + d.expires_in * 1000)⟩,
       [.token "api"])) :=
  ⟨fun _ => rfl, fun _ => rfl⟩

/-- C6: `getCustomerAccessToken` always issues exactly one fresh OAuth
request, with scope `customer.` followed by the customer id — it is
never served from the cache — and it leaves both cached API-token
fields unchanged, returning the vendor response unaltered. -/
theorem getCustomerAccessToken_fresh_and_frame
    (ctResp : Except String CustTokenResponse)
    (customerId : Option String) (cache : TokenCache) :
    (getCustomerAccessToken ctResp customerId cache).1 = ctResp ∧
    (getCustomerAccessToken ctResp customerId cache).2.1 = cache ∧
    (getCustomerAccessToken ctResp customerId cache).2.2 =
      [.token ("customer." ++ jsStrUndef customerId)] :=
  ⟨rfl, rfl, rfl⟩

/-- C5: a failure at any step of `initializeCustomer` aborts the whole
workflow with the failure object `\x7bsuccess: false, error\x7d`; in
particular when customer creation fails, no customer-scoped token
request ever appears in the trace (every token request issued has
scope `api`). -/
theorem initializeCustomer_fail_fast
    (custResp : Except String CustomerResponse)
    (ctResp : Except String CustTokenResponse)
    (now1 now2 : Int) (cache : TokenCache) (appUserId : Option String) :
    (∀ e, (initializeCustomer (.error e) custResp ctResp now1 now2 cache appUserId).1 = .err e ∧
      (initializeCustomer (.error e) custResp ctResp now1 now2 cache appUserId).2.2 =
        [.token "api"]) ∧
    (∀ d e, custResp = .error e →
      (initializeCustomer (.ok d) custResp ctResp now1 now2 cache appUserId).1 = .err e ∧
      (∀ s, LeanRequest.token s ∈
          (initializeCustomer (.ok d) custResp ctResp now1 now2 cache appUserId).2.2 →
        s = "api")) ∧
    (∀ d c e, custResp = .ok c → ctResp = .error e →
      (initializeCustomer (.ok d) custResp ctResp now1 now2 cache appUserId).1 = .err e) := by
  refine ⟨fun e => ⟨rfl, rfl⟩, fun d e hc => ?_, fun d c e hc hct => ?_⟩
  · subst hc
    constructor
    · simp only [initializeCustomer, getApiAccessToken, createCustomer]
      cases needsTokenRefresh ⟨some d.access_token, some (now1 + d.expires_in * 1000)⟩ now2 <;>
        simp [getApiAccessToken]
    · intro s hs
      simp only [initializeCustomer, getApiAccessToken, createCustomer] at hs
      cases hb : needsTokenRefresh ⟨some d.access_token, some (now1 + d.expires_in * 1000)⟩ now2 <;>
        simp [hb, getApiAccessToken] at hs <;> simp [hs]
  · subst hc; subst hct
    simp only [initializeCustomer, getApiAccessToken, createCustomer]
    cases needsTokenRefresh ⟨some d.access_token, some (now1 + d.expires_in * 1000)⟩ now2 <;>
      simp [getApiAccessToken, getCustomerAccessToken]

/-- C10: both workflows begin by unconditionally calling
`getApiAccessToken` — the first request of every trace is a token
request with scope `api`, whatever the cache holds, so the cache-hit
path is bypassed — and on a successful token response the cached
token and expiry are overwritten with the fresh values. -/
theorem workflows_always_refresh
    (tokenResp : Except String TokenResponse)
    (custResp : Except String CustomerResponse)
    (ctResp : Except String CustTokenResponse)
    (now1 now2 : Int) (cache : TokenCache)
    (appUserId : Option String) (customerId : String) :
    ((initializeCustomer tokenResp custResp ctResp now1 now2 cache appUserId).2.2).head? =
      some (.token "api") ∧
    ((getTokensForCustomer tokenResp ctResp now1 cache customerId).2.2).head? =
      some (.token "api") ∧
    (∀ d, tokenResp = .ok d →
      (getTokensForCustomer tokenResp ctResp now1 cache customerId).2.1 =
        ⟨some d.access_token, some (now1 + d.expires_in * 1000)⟩) ∧
    (∀ d, tokenResp = .ok d → d.access_token ≠ "" →
      now2 < now1 + d.expires_in * 1000 →
      (initializeCustomer tokenResp custResp ctResp now1 now2 cache appUserId).2.1 =
        ⟨some d.access_token, some (now1 + d.expires_in * 1000)⟩) := by
  refine ⟨?_, ?_, fun d hd => ?_, fun d hd hne hlt => ?_⟩
  · cases tokenResp with
    | error e => rfl
    | ok d =>
      simp only [initializeCustomer, getApiAccessToken, createCustomer]
      cases needsTokenRefresh ⟨some d.access_token, some (now1 + d.expires_in * 1000)⟩ now2 <;>
        cases custResp <;> simp [getApiAccessToken, getCustomerAccessToken] <;>
        cases ctResp <;> simp
  · cases tokenResp with
    | error e => rfl
    | ok d => cases ctResp <;> rfl
  · subst hd; cases ctResp <;> rfl
  · subst hd
    have href : needsTokenRefresh
        ⟨some d.access_token, some (now1 + d.expires_in * 1000)⟩ now2 = false := by
      simp [needsTokenRefresh, jsFalsyStr, expiryVal, hne]
      omega
    simp only [initializeCustomer, getApiAccessToken, createCustomer, href]
    cases custResp with
    | error e => simp
    | ok c => cases ctResp <;> simp [getCustomerAccessToken]

/-- C1: the API-token cache contract of a privileged call
(`createCustomer`): with a cached token and the current time strictly
before its expiry, no token-endpoint call is made and the cached token
is used as the bearer; with no cached token or at/after expiry, one
client-credentials request is issued and the returned `access_token`
is stored with absolute expiry `now + expires_in * 1000`; a second
call within the validity window then hits the cache, for exactly one
token call across the two calls. -/
theorem createCustomer_token_cache_contract
    (tokenResp : Except String TokenResponse)
    (custResp : Except String CustomerResponse)
    (cache : TokenCache) (appUserId : Option String) :
    (∀ t exp now, cache.apiAccessToken = some t → t ≠ "" →
      cache.apiTokenExpiry = some exp → now < exp →
      createCustomer tokenResp custResp now cache appUserId =
        (custResp, cache, [.createCust appUserId (some t)])) ∧
    (∀ d now, needsTokenRefresh cache now = true → tokenResp = .ok d →
      createCustomer tokenResp custResp now cache appUserId =
        (custResp, ⟨some d.access_token, some (now + d.expires_in * 1000)⟩,
         [.token "api", .createCust appUserId (some d.access_token)])) ∧
    (∀ d now1 now2, needsTokenRefresh cache now1 = true → tokenResp = .ok d →
      d.access_token ≠ "" → now2 < now1 + d.expires_in * 1000 →
      countTokenReqs ((createCustomer tokenResp custResp now1 cache appUserId).2.2 ++
        (createCustomer tokenResp custResp now2
          (createCustomer tokenResp custResp now1 cache appUserId).2.1 appUserId).2.2) = 1) := by
  refine ⟨fun t exp now hat hne hexp hlt => ?_, fun d now href hok => ?_,
    fun d now1 now2 href hok hne hlt => ?_⟩
  · have hb : needsTokenRefresh cache now = false := by
      simp [needsTokenRefresh, jsFalsyStr, hat, hexp, expiryVal, hne]
      omega
    simp [createCustomer, hb, hat]
  · subst hok
    simp [createCustomer, href, getApiAccessToken]
  · subst hok
    have hb2 : needsTokenRefresh
        ⟨some d.access_token, some (now1 + d.expires_in * 1000)⟩ now2 = false := by
      simp [needsTokenRefresh, jsFalsyStr, expiryVal, hne]
      omega
    simp [createCustomer, href, hb2, getApiAccessToken, countTokenReqs]

/-- C2: the create-link-token flow retry policy — when the first
endpoint response fails the `INVALID_INSTITUTION` test, exactly one
retry is sent with `institution_id` omitted and the retry response
determines the final outcome; any other failing first response is
surfaced immediately with no retry; and in no execution are more than
two requests sent, whatever the retry returns. -/
theorem initializePlaid_retry_policy (userId : String)
    (selectedInstitution : Option String) (resp1 resp2 : FetchResp) :
    (invalidInstitutionResp resp1 = true →
      initializePlaid userId selectedInstitution resp1 resp2 =
        (finalizeLinkResp resp2,
         [⟨userId, if jsFalsyStr selectedInstitution then none else selectedInstitution⟩,
          ⟨userId, none⟩])) ∧
    (invalidInstitutionResp resp1 = false →
      initializePlaid userId selectedInstitution resp1 resp2 =
        (finalizeLinkResp resp1,
         [⟨userId, if jsFalsyStr selectedInstitution then none else selectedInstitution⟩])) ∧
    (respOk resp1 = false → invalidInstitutionResp resp1 = false →
      (initializePlaid userId selectedInstitution resp1 resp2).1 =
        .err (jsStrUndef (jsOr resp1.error (some "Failed to create link token")))) ∧
    (initializePlaid userId selectedInstitution resp1 resp2).2.length ≤ 2 := by
  refine ⟨fun h => by simp [initializePlaid, h],
    fun h => by simp [initializePlaid, h],
    fun hok hinv => by simp [initializePlaid, hinv, finalizeLinkResp, hok], ?_⟩
  simp only [initializePlaid]
  cases invalidInstitutionResp resp1 <;> simp

/-- C3 counterexample: a POST to `/api/plaid/create-link-token` whose
single vendor attempt fails with `INVALID_INSTITUTION` is answered
with HTTP 400 and `error_type INVALID_INSTITUTION` — not 200 with a
link token — and the handler makes exactly one vendor call, so no
server-side retry happens before responding. -/
theorem createLinkToken_endpoint_cex :
    (createLinkTokenHandler (.ok (some "u1", some "ins_109508"))
        (.error "HTTP 400: error code INVALID_INSTITUTION") 0).1 =
      (400, .failure "HTTP 400: error code INVALID_INSTITUTION" "INVALID_INSTITUTION") ∧
    ((createLinkTokenHandler (.ok (some "u1", some "ins_109508"))
        (.error "HTTP 400: error code INVALID_INSTITUTION") 0).2).length = 1 :=
  ⟨rfl, rfl⟩

/-- C3 amended: when the vendor attempt of
`/api/plaid/create-link-token` fails with an error matching
`INVALID_INSTITUTION`, that endpoint call itself responds 400 with
`error_type INVALID_INSTITUTION` after exactly one vendor call; the
retry is client-side — the frontend, on receiving such a 400, re-POSTs
the endpoint once without `institution_id`, and when the retry
succeeds with a link token the flow outcome is that token. -/
theorem createLinkToken_endpoint_client_retry
    (user_id institution_id : Option String) (nowMs : Int) (e : String)
    (h : containsSub e "INVALID_INSTITUTION" = true) :
    (createLinkTokenHandler (.ok (user_id, institution_id)) (.error e) nowMs).1 =
      (400, .failure e "INVALID_INSTITUTION") ∧
    ((createLinkTokenHandler (.ok (user_id, institution_id)) (.error e) nowMs).2).length = 1 ∧
    (∀ userId inst lt, lt ≠ "" →
      initializePlaid userId inst
          ⟨400, some "INVALID_INSTITUTION", some e, none⟩
          ⟨200, none, none, some lt⟩ =
        (.ok lt,
         [⟨userId, if jsFalsyStr inst then none else inst⟩, ⟨userId, none⟩])) := by
  refine ⟨?_, ?_, fun userId inst lt hlt => ?_⟩
  · simp [createLinkTokenHandler, createPlaidLinkToken, h]
  · simp [createLinkTokenHandler, createPlaidLinkToken, h]
  · simp [initializePlaid, invalidInstitutionResp, respOk, finalizeLinkResp,
      jsFalsyStr, hlt, jsStrUndef]

/-- C4 counterexample: with a vendor customer-creation response that
lacks any customer identifier, the server-side `createCustomer`
returns it as a normal value — no failure is surfaced — and
`initializeCustomer` does not abort: it proceeds to the
token-elevation step, requesting scope `customer.undefined`, and
completes with `success: true`. -/
theorem createCustomer_missing_id_cex :
    (createCustomer (.ok ⟨"tokA", 3600⟩) (.ok ⟨none, none, some "u1", none⟩) 0
        TokenCache.init (some "u1")).1 = .ok ⟨none, none, some "u1", none⟩ ∧
    LeanRequest.token "customer.undefined" ∈
      (initializeCustomer (.ok ⟨"tokA", 3600⟩) (.ok ⟨none, none, some "u1", none⟩)
          (.ok ⟨"ct-token", 600, "customer.undefined"⟩) 0 0
          TokenCache.init (some "u1")).2.2 ∧
    (initializeCustomer (.ok ⟨"tokA", 3600⟩) (.ok ⟨none, none, some "u1", none⟩)
        (.ok ⟨"ct-token", 600, "customer.undefined"⟩) 0 0
        TokenCache.init (some "u1")).1 =
      .ok none (some "u1") "ct-token" 600 "customer.undefined" := by
  refine ⟨rfl, ?_, rfl⟩
  decide

/-- C4 amended: only the browser-side simulation validates the
customer identifier — `LeanBackendAPI.createCustomer` throws
(`Customer API did not return a customer_id`) when
`data.customer_id || data.id` is falsy, aborting its flow — while the
server-side `createCustomer` returns the response unvalidated and
`initializeCustomer` goes on to attempt token elevation with the
interpolated scope (`customer.undefined` when the identifier is
absent). -/
theorem customer_identifier_validation
    (data : CustomerResponse)
    (h : jsFalsyStr (jsOr data.customer_id data.id) = true) :
    simCreateCustomer (.ok data) =
      .error "Customer API did not return a customer_id" ∧
    (∀ d now cache appUserId,
      (createCustomer (.ok d) (.ok data) now cache appUserId).1 = .ok data) ∧
    (∀ d ct now1 now2 cache appUserId,
      LeanRequest.token ("customer." ++ jsStrUndef (jsOr data.customer_id data.id)) ∈
        (initializeCustomer (.ok d) (.ok data) (.ok ct) now1 now2 cache appUserId).2.2) := by
  refine ⟨by simp [simCreateCustomer, h], fun d now cache appUserId => ?_,
    fun d ct now1 now2 cache appUserId => ?_⟩
  · cases hb : needsTokenRefresh cache now <;>
      simp [createCustomer, hb, getApiAccessToken]
  · simp only [initializeCustomer, getApiAccessToken, createCustomer]
    cases hb : needsTokenRefresh
        ⟨some d.access_token, some (now1 + d.expires_in * 1000)⟩ now2 <;>
      simp [hb, getApiAccessToken, getCustomerAccessToken]

/-- C7 counterexample: a failure of the customer-initialization
workflow reaches the `/api/initialize-customer` boundary and is
returned with HTTP status 200 (carrying the
`\x7bsuccess: false, error\x7d` body) — a failure returned with a
success status code, where the claim requires 400 or 500. -/
theorem workflow_failure_http200_cex :
    initializeCustomerHandler (.ok (some "user_abc"))
        (.error "HTTP 401: invalid client credentials")
        (.error "unused") (.error "unused2") 0 0 TokenCache.init =
      ((200, .err "HTTP 401: invalid client credentials"),
       TokenCache.init, [.token "api"]) :=
  rfl

/-- C7 amended: validation failures are rejected with 400 before any
network call and parse errors with 500, and the Plaid endpoints map
vendor failures to 400 (`INVALID_INSTITUTION`) or 500; but the Lean
workflow endpoints `/api/initialize-customer` and
`/api/get-customer-tokens` return workflow failures with HTTP 200 and
a `success: false` JSON envelope — only a body-parse error yields 500
there. -/
theorem endpoint_error_statuses
    (tokenResp : Except String TokenResponse)
    (custResp : Except String CustomerResponse)
    (ctResp : Except String CustTokenResponse)
    (now1 now2 nowMs : Int) (cache : TokenCache)
    (appUserId customer_id sd ed : Option String) (e : String) :
    (initializeCustomerHandler (.error e) tokenResp custResp ctResp now1 now2 cache).1 =
      (500, .err e) ∧
    (getCustomerTokensHandler (.error e) tokenResp ctResp now1 cache).1 =
      (500, .err e) ∧
    (jsFalsyStr customer_id = true →
      getCustomerTokensHandler (.ok customer_id) tokenResp ctResp now1 cache =
        ((400, .err "customer_id is required"), cache, [])) ∧
    (tokenResp = .error e →
      (initializeCustomerHandler (.ok appUserId) tokenResp custResp ctResp
          now1 now2 cache).1 = (200, .err e)) ∧
    (tokenResp = .error e → jsFalsyStr customer_id = false →
      (getCustomerTokensHandler (.ok customer_id) tokenResp ctResp now1 cache).1 =
        (200, .err e)) ∧
    ((createLinkTokenHandler (.ok (appUserId, customer_id)) (.error e) nowMs).1.1 =
      if containsSub e "INVALID_INSTITUTION" then 400 else 500) ∧
    (jsFalsyStr appUserId = false →
      (plaidTransactionsHandler (.ok (appUserId, sd, ed)) (.error e) nowMs).1.1 = 500) := by
  refine ⟨rfl, rfl, fun h => by simp [getCustomerTokensHandler, h],
    fun h => ?_, fun h hc => ?_, ?_, fun h => ?_⟩
  · subst h; rfl
  · subst h
    simp [getCustomerTokensHandler, hc, getTokensForCustomer, getApiAccessToken]
  · simp only [createLinkTokenHandler, createPlaidLinkToken]
    cases hinv : containsSub e "INVALID_INSTITUTION" <;> simp [hinv]
  · simp [plaidTransactionsHandler, h, getPlaidTransactions]

/-- C8: when `start_date` or `end_date` is omitted from a
`/api/plaid/transactions` call, the vendor request uses the trailing
30-day window — `end_date` defaults to the ISO date of `nowMs` and
`start_date` to the ISO date of `nowMs - 30 * 24 * 60 * 60 * 1000` —
while provided (non-empty) dates are passed through unchanged. -/
theorem transactions_default_window
    (vendorResp : Except String TransactionsData) (nowMs : Int)
    (tok : String) (htok : tok ≠ "") :
    (plaidTransactionsHandler (.ok (some tok, none, none)) vendorResp nowMs).2 =
      [.transactionsGet tok (isoDateString (nowMs - 30 * 24 * 60 * 60 * 1000))
        (isoDateString nowMs)] ∧
    (∀ sd, sd ≠ "" →
      (plaidTransactionsHandler (.ok (some tok, some sd, none)) vendorResp nowMs).2 =
        [.transactionsGet tok sd (isoDateString nowMs)]) ∧
    (∀ ed, ed ≠ "" →
      (plaidTransactionsHandler (.ok (some tok, none, some ed)) vendorResp nowMs).2 =
        [.transactionsGet tok (isoDateString (nowMs - 30 * 24 * 60 * 60 * 1000)) ed]) ∧
    (∀ sd ed, sd ≠ "" → ed ≠ "" →
      (plaidTransactionsHandler (.ok (some tok, some sd, some ed)) vendorResp nowMs).2 =
        [.transactionsGet tok sd ed]) := by
  refine ⟨?_, fun sd hsd => ?_, fun ed hed => ?_, fun sd ed hsd hed => ?_⟩ <;>
    cases vendorResp <;>
      simp [plaidTransactionsHandler, jsFalsyStr, htok, jsOr, jsStrUndef,
        getPlaidTransactions, *]

/-- Witness for C1: at a concrete cached state
(token `cached-token`, expiry 10000, now 5000) the cache-hit branch is
taken, and a refresh at now 0 followed by a second call at now 1000
within the 3600 s validity window makes exactly one token call. -/
theorem createCustomer_token_cache_contract_witness :
    createCustomer (.error "unused") (.ok ⟨some "c1", none, some "u1", none⟩)
        5000 ⟨some "cached-token", some 10000⟩ (some "u1") =
      (.ok ⟨some "c1", none, some "u1", none⟩,
       ⟨some "cached-token", some 10000⟩,
       [.createCust (some "u1") (some "cached-token")]) ∧
    countTokenReqs
      ((createCustomer (.ok ⟨"tokA", 3600⟩) (.ok ⟨some "c1", none, some "u1", none⟩)
          0 TokenCache.init (some "u1")).2.2 ++
        (createCustomer (.ok ⟨"tokA", 3600⟩) (.ok ⟨some "c1", none, some "u1", none⟩)
          1000
          (createCustomer (.ok ⟨"tokA", 3600⟩) (.ok ⟨some "c1", none, some "u1", none⟩)
            0 TokenCache.init (some "u1")).2.1 (some "u1")).2.2) = 1 := by
  constructor
  · exact (createCustomer_token_cache_contract (.error "unused")
      (.ok ⟨some "c1", none, some "u1", none⟩)
      ⟨some "cached-token", some 10000⟩ (some "u1")).1
      "cached-token" 10000 5000 rfl (by decide) rfl (by decide)
  · exact (createCustomer_token_cache_contract (.ok ⟨"tokA", 3600⟩)
      (.ok ⟨some "c1", none, some "u1", none⟩)
      TokenCache.init (some "u1")).2.2
      ⟨"tokA", 3600⟩ 0 1000 (by decide) rfl (by decide) (by decide)

/-- Witness for C2: a concrete first response failing with
`INVALID_INSTITUTION` triggers exactly one retry without
`institution_id`, and the successful retry response is the final
outcome. -/
theorem initializePlaid_retry_policy_witness :
    initializePlaid "u1" (some "ins_109508")
        ⟨400, some "INVALID_INSTITUTION", none, none⟩
        ⟨200, none, none, some "link-sandbox-1"⟩ =
      (.ok "link-sandbox-1",
       [⟨"u1", some "ins_109508"⟩, ⟨"u1", none⟩]) := by
  have h := (initializePlaid_retry_policy "u1" (some "ins_109508")
      ⟨400, some "INVALID_INSTITUTION", none, none⟩
      ⟨200, none, none, some "link-sandbox-1"⟩).1 (by decide)
  simpa [finalizeLinkResp, respOk, jsFalsyStr, jsOr, jsStrUndef] using h

/-- Witness for C3 amended: at a concrete `INVALID_INSTITUTION` vendor
error, the endpoint answers 400 with one vendor call, and the
client-side retry then obtains the link token. -/
theorem createLinkToken_endpoint_client_retry_witness :
    (createLinkTokenHandler (.ok (some "u1", some "ins_109508"))
        (.error "HTTP 400: body INVALID_INSTITUTION") 0).1 =
      (400, .failure "HTTP 400: body INVALID_INSTITUTION" "INVALID_INSTITUTION") ∧
    initializePlaid "u1" (some "ins_109508")
        ⟨400, some "INVALID_INSTITUTION", some "HTTP 400: body INVALID_INSTITUTION", none⟩
        ⟨200, none, none, some "link-sandbox-2"⟩ =
      (.ok "link-sandbox-2",
       [⟨"u1", some "ins_109508"⟩, ⟨"u1", none⟩]) := by
  have h := createLinkToken_endpoint_client_retry (some "u1") (some "ins_109508") 0
      "HTTP 400: body INVALID_INSTITUTION" (by decide)
  refine ⟨h.1, ?_⟩
  have h2 := h.2.2 "u1" (some "ins_109508") "link-sandbox-2" (by decide)
  simpa [jsFalsyStr] using h2

/-- Witness for C4 amended: at a concrete response with neither
`customer_id` nor `id`, the simulation throws while the server
workflow requests scope `customer.undefined`. -/
theorem customer_identifier_validation_witness :
    simCreateCustomer (.ok ⟨none, none, some "u1", none⟩) =
      .error "Customer API did not return a customer_id" ∧
    LeanRequest.token "customer.undefined" ∈
      (initializeCustomer (.ok ⟨"tokA", 3600⟩) (.ok ⟨none, none, some "u1", none⟩)
          (.ok ⟨"ct-token", 600, "customer.undefined"⟩) 0 0
          TokenCache.init (some "u1")).2.2 := by
  have h := customer_identifier_validation ⟨none, none, some "u1", none⟩ (by decide)
  exact ⟨h.1, h.2.2 ⟨"tokA", 3600⟩ ⟨"ct-token", 600, "customer.undefined"⟩
    0 0 TokenCache.init (some "u1")⟩

/-- Witness for C5: a concrete customer-creation failure yields the
failure object and the trace contains no customer-scoped token
request. -/
theorem initializeCustomer_fail_fast_witness :
    (initializeCustomer (.ok ⟨"tokA", 3600⟩) (.error "HTTP 500: creation failed")
        (.ok ⟨"ct-token", 600, "customer.c1"⟩) 0 0
        TokenCache.init (some "u1")).1 = .err "HTTP 500: creation failed" ∧
    ("customer.c1" = "api" → False) := by
  refine ⟨?_, by decide⟩
  exact ((initializeCustomer_fail_fast (.error "HTTP 500: creation failed")
      (.ok ⟨"ct-token", 600, "customer.c1"⟩) 0 0
      TokenCache.init (some "u1")).2.1
      ⟨"tokA", 3600⟩ "HTTP 500: creation failed" rfl).1

/-- Witness for C7 amended: concrete instances of the 400, 500 and 200
status mappings of the handlers. -/
theorem endpoint_error_statuses_witness :
    (getCustomerTokensHandler (.ok none) (.error "boom") (.error "boom") 0
        TokenCache.init).1 = (400, .err "customer_id is required") ∧
    (initializeCustomerHandler (.ok (some "u1")) (.error "HTTP 401: auth failed")
        (.error "x") (.error "y") 0 0 TokenCache.init).1 =
      (200, .err "HTTP 401: auth failed") ∧
    (createLinkTokenHandler (.ok (some "u1", none))
        (.error "HTTP 500: vendor down") 0).1.1 = 500 := by
  have h := endpoint_error_statuses (.error "HTTP 401: auth failed") (.error "x")
      (.error "y") 0 0 0 TokenCache.init (some "u1") none none none
      "HTTP 401: auth failed"
  refine ⟨?_, h.2.2.2.1 rfl, ?_⟩
  · have h2 := endpoint_error_statuses (.error "boom") (.error "x") (.error "boom")
        0 0 0 TokenCache.init (some "u1") none none none "boom"
    have h3 := h2.2.2.1 (by decide)
    simpa using congrArg Prod.fst h3
  · have h4 := endpoint_error_statuses (.error "x") (.error "x") (.error "y")
        0 0 0 TokenCache.init (some "u1") none none none "HTTP 500: vendor down"
    simpa using h4.2.2.2.2.2.1

/-- Witness for C8: at a concrete timestamp (2025-10-12 UTC) the
omitted dates default to the 30-day window 2025-09-12 .. 2025-10-12,
and provided dates pass through. -/
theorem transactions_default_window_witness :
    (plaidTransactionsHandler (.ok (some "tok-1", none, none))
        (.ok ⟨"txs"⟩) 1760227200000).2 =
      [.transactionsGet "tok-1" "2025-09-12" "2025-10-12"] ∧
    (plaidTransactionsHandler (.ok (some "tok-1", some "2024-01-01", some "2024-02-01"))
        (.ok ⟨"txs"⟩) 1760227200000).2 =
      [.transactionsGet "tok-1" "2024-01-01" "2024-02-01"] := by
  have h := transactions_default_window (.ok ⟨"txs"⟩) 1760227200000 "tok-1" (by decide)
  refine ⟨?_, h.2.2.2 "2024-01-01" "2024-02-01" (by decide) (by decide)⟩
  have h1 := h.1
  have he : isoDateString 1760227200000 = "2025-10-12" := by decide
  have hs : isoDateString (1760227200000 - 30 * 24 * 60 * 60 * 1000) = "2025-09-12" := by
    decide
  rw [he, hs] at h1
  exact h1

/-- Witness for C10: even with a still-valid cached token
(`cached`, expiry far in the future, now 0), both workflows issue the
token request first and overwrite the cache with the fresh token. -/
theorem workflows_always_refresh_witness :
    ((initializeCustomer (.ok ⟨"fresh", 3600⟩) (.ok ⟨some "c1", none, some "u1", none⟩)
        (.ok ⟨"ct-token", 600, "customer.c1"⟩) 0 0
        ⟨some "cached", some 1000000000⟩ (some "u1")).2.2).head? =
      some (.token "api") ∧
    (initializeCustomer (.ok ⟨"fresh", 3600⟩) (.ok ⟨some "c1", none, some "u1", none⟩)
        (.ok ⟨"ct-token", 600, "customer.c1"⟩) 0 0
        ⟨some "cached", some 1000000000⟩ (some "u1")).2.1 =
      ⟨some "fresh", some 3600000⟩ ∧
    (getTokensForCustomer (.ok ⟨"fresh", 3600⟩) (.ok ⟨"ct-token", 600, "customer.c1"⟩)
        0 ⟨some "cached", some 1000000000⟩ "c1").2.1 =
      ⟨some "fresh", some 3600000⟩ := by
  have h := workflows_always_refresh (.ok ⟨"fresh", 3600⟩)
      (.ok ⟨some "c1", none, some "u1", none⟩)
      (.ok ⟨"ct-token", 600, "customer.c1"⟩) 0 0
      ⟨some "cached", some 1000000000⟩ (some "u1") "c1"
  exact ⟨h.1, h.2.2.2 ⟨"fresh", 3600⟩ rfl (by decide) (by decide),
    h.2.2.1 ⟨"fresh", 3600⟩ rfl⟩

end LeanSDK
